import Mathlib

/-!
Shallow embedding of the llmcli chat client (src/src/lib.rs, src/src/main.rs,
src/src/chatbots/dummy.rs) and verification of the frozen claims about it.

Streams are modelled as finite lists of fallible chunks; the asynchronous
suspension points of the Rust code carry no extra semantic content for the
claims, so `send_message` is a pure function from the history to either a
call-level error or the list of stream items.
-/

set_option autoImplicit false

deriving instance DecidableEq for Except

namespace Llmcli

/-- The role enumeration from src/src/lib.rs (`System | User | Assistant`). -/
inductive Role where
  | system
  | user
  | assistant
deriving DecidableEq, Repr

/-- A transcript entry, from src/src/lib.rs: `Message { role, content }`. -/
structure Message where
  role : Role
  content : String
deriving DecidableEq, Repr

/-- The error taxonomy of src/src/lib.rs `ChatbotError`. The payloads of the
`ApiKeyMissing` and `NetworkError` variants are collapsed to their display
strings, which is all the core ever does with them. -/
inductive ChatbotError where
  | apiKeyMissing
  | timeout
  | serverError
  | networkError (msg : String)
  | unexpectedResponse
deriving DecidableEq, Repr

/-- Modelled from the spec: `ChatbotCreationError` is referenced by main.rs and
dummy.rs but its defining module is not under src; §4.1 names the
`UnknownChatbot` variant used by the factory and a provider-specific
creation failure. -/
inductive ChatbotCreationError where
  | unknownChatbot
  | creationFailed (msg : String)
deriving DecidableEq, Repr

/-- Modelled from the spec: `InvalidModelError` (§4.1 `change_model`); its
defining module is not under src. -/
inductive InvalidModelError where
  | invalid (model : String)
deriving DecidableEq, Repr

/-- Shallow embedding of a `Box<dyn Chatbot>` trait object (src/src/lib.rs
`Chatbot`, §4.1): the capability record hold the display name, the current
model, the supported models, the model-change operation (returning the model
identifier in effect after a successful change), and `send_message`, which
returns either a call-level error or the finite list of fallible stream
items that the response stream will yield, in emission order. -/
structure Chatbot where
  name : String
  model : String
  availableModels : List String
  changeModelF : String → Except InvalidModelError String
  sendMessage : List Message → Except ChatbotError (List (Except ChatbotError String))

/-- The no-op backend response text, from src/src/chatbots/dummy.rs
`send_message`: one chunk, chosen by the last message of the history. -/
def dummySend (messages : List Message) :
    Except ChatbotError (List (Except ChatbotError String)) :=
  match messages.getLast? with
  | none => .ok [.ok "Dummy response to empty conversation."]
  | some lastMsg =>
      if lastMsg.role = Role.user then
        .ok [.ok ("Dummy response to: \"" ++ lastMsg.content ++ "\".")]
      else
        .ok [.ok "Dummy response."]

/-- The no-op backend of src/src/chatbots/dummy.rs: name "Dummy", model "1",
`change_model` always succeeds and changes nothing. The supported-models
list is not determined by the files under src and is unused by the claims. -/
def dummyChatbot : Chatbot :=
  { name := "Dummy"
    model := "1"
    availableModels := []
    changeModelF := fun _ => .ok "1"
    sendMessage := dummySend }

/-- `DummyChatbot::create` from src/src/chatbots/dummy.rs: always succeeds,
ignoring the model and api key arguments. -/
def dummyCreate (_model : String) (_apiKey : Option String) :
    Except ChatbotCreationError Chatbot :=
  .ok dummyChatbot

/-- Modelled from the spec: the Gemini backend (gemini.rs is not under src).
Construction succeeds and records the requested model; §4.1 requires
construction not to perform network I/O, and the claims never rely on this
backend's network behaviour, so its stream is left always-failing. -/
def geminiCreate (model : String) (apiKey : Option String) :
    Except ChatbotCreationError Chatbot :=
  .ok { name := "Gemini"
        model := model
        availableModels := []
        changeModelF := fun m => .ok m
        sendMessage := fun _ =>
          .error (match apiKey with
                  | none => ChatbotError.apiKeyMissing
                  | some _ => ChatbotError.unexpectedResponse) }

/-- Concatenation of a chunk list, mirroring the accumulator growth of
`handle_chat_message` in src/src/main.rs. -/
def concatChunks : List String → String
  | [] => ""
  | t :: rest => t ++ concatChunks rest

/-- The drain loop of `handle_chat_message` (src/src/main.rs 419-429): walk the
stream items in order; each `Ok` chunk is printed (recorded in the first
component, in order) and appended to the accumulator; the first `Err`
stops the drain and is returned, discarding the incomplete accumulator. -/
def drain : List (Except ChatbotError String) → String → List String →
    List String × Except ChatbotError String
  | [], acc, out => (out.reverse, .ok acc)
  | .ok t :: rest, acc, out => drain rest (acc ++ t) (t :: out)
  | .error e :: _, _, out => (out.reverse, .error e)

/-- `handle_chat_message` from src/src/main.rs 411-432: send the history, drain
the stream, and on success build the assistant `Message` from the
accumulated text. The first component lists the chunks forwarded to the
output sink, in emission order. -/
def handleChatMessage (hist : List Message) (cb : Chatbot) :
    List String × Except ChatbotError Message :=
  match cb.sendMessage hist with
  | .error e => ([], .error e)
  | .ok chunks =>
      match drain chunks "" [] with
      | (out, .ok acc) => (out, .ok ⟨Role.assistant, acc⟩)
      | (out, .error e) => (out, .error e)

theorem drain_all_ok (ts : List String) (acc : String) (out : List String) :
    drain (ts.map Except.ok) acc out = (out.reverse ++ ts, .ok (acc ++ concatChunks ts)) := by
  induction ts generalizing acc out with
  | nil => simp [drain, concatChunks]
  | cons t rest ih =>
      simp only [List.map_cons, drain, concatChunks, ih, List.reverse_cons,
        List.append_assoc, List.cons_append, List.nil_append, String.append_assoc]

/-- Claim C4: the dummy backend's `send_message` yields exactly one chunk —
echoing the last user message when the history ends in a `User` message,
the fixed text `Dummy response.` when it ends in a non-`User` message, and
`Dummy response to empty conversation.` on an empty history — and neither
the call nor any stream item is ever an error. -/
theorem dummy_send_message_spec (msgs : List Message) :
    (msgs = [] → dummySend msgs = .ok [.ok "Dummy response to empty conversation."])
    ∧ (∀ lastMsg, msgs.getLast? = some lastMsg →
        (lastMsg.role = Role.user →
          dummySend msgs = .ok [.ok ("Dummy response to: \"" ++ lastMsg.content ++ "\".")])
        ∧ (lastMsg.role ≠ Role.user → dummySend msgs = .ok [.ok "Dummy response."]))
    ∧ (∃ chunks, dummySend msgs = .ok chunks ∧ ∀ c ∈ chunks, ∃ s, c = .ok s) := by
  refine ⟨fun h => by subst h; rfl, fun lastMsg hlast => ⟨fun hu => ?_, fun hnu => ?_⟩, ?_⟩
  · simp [dummySend, hlast, hu]
  · simp [dummySend, hlast, hnu]
  · cases hm : msgs.getLast? with
    | none =>
        refine ⟨[.ok "Dummy response to empty conversation."], by simp [dummySend, hm], ?_⟩
        intro c hc
        rw [List.mem_singleton] at hc
        exact ⟨_, hc⟩
    | some lastMsg =>
        by_cases hu : lastMsg.role = Role.user
        · refine ⟨[.ok ("Dummy response to: \"" ++ lastMsg.content ++ "\".")],
            by simp [dummySend, hm, hu], ?_⟩
          intro c hc
          rw [List.mem_singleton] at hc
          exact ⟨_, hc⟩
        · refine ⟨[.ok "Dummy response."], by simp [dummySend, hm, hu], ?_⟩
          intro c hc
          rw [List.mem_singleton] at hc
          exact ⟨_, hc⟩

theorem dummy_send_message_spec_witness :
    dummySend [⟨Role.user, "hi"⟩] = .ok [.ok "Dummy response to: \"hi\"."] :=
  ((dummy_send_message_spec [⟨Role.user, "hi"⟩]).2.1 ⟨Role.user, "hi"⟩ (by decide)).1 rfl

/-- Claim C5: for any finite all-successful chunk sequence (including the empty
one) the streaming consumer forwards exactly those chunks, in emission
order, to the output sink, and returns an Assistant message whose content
is their concatenation in that order; zero chunks give empty content. -/
theorem streaming_consumer_spec (hist : List Message) (cb : Chatbot) (ts : List String)
    (h : cb.sendMessage hist = .ok (ts.map Except.ok)) :
    handleChatMessage hist cb = (ts, .ok ⟨Role.assistant, concatChunks ts⟩) := by
  simp [handleChatMessage, h, drain_all_ok]

/-- A backend with a fixed two-chunk successful stream, used to witness the
streaming-consumer theorem. -/
def streamABChatbot : Chatbot :=
  { name := "AB"
    model := "1"
    availableModels := []
    changeModelF := fun m => .ok m
    sendMessage := fun _ => .ok [.ok "a", .ok "b"] }

theorem streaming_consumer_spec_witness :
    handleChatMessage [] streamABChatbot = (["a", "b"], .ok ⟨Role.assistant, "ab"⟩) := by
  have h := streaming_consumer_spec [] streamABChatbot ["a", "b"] rfl
  exact h.trans (by decide)

/-- The session of src/src/main.rs: the ordered transcript owned by the REPL
(the session module itself is not under src; only its message list is ever
consulted by the core code that is). -/
structure Session where
  messages : List Message
deriving DecidableEq, Repr

/-- Modelled from the spec: the error class of §4.3 session persistence
(`NotFound` for a missing record, a deserialization error for an invalid
stored shape); session.rs is not under src. -/
inductive SessionError where
  | notFound (name : String)
  | deserialize (name : String)
deriving DecidableEq, Repr

/-- The lowercase role tag written on save, from the serde attributes of
src/src/lib.rs (`rename_all = "lowercase"`). -/
def encodeRole : Role → String
  | .system => "system"
  | .user => "user"
  | .assistant => "assistant"

/-- The role tag accepted on load, from the serde attributes of
src/src/lib.rs: the three lowercase tags plus the legacy alias `model`
for `Assistant`. -/
def decodeRole : String → Option Role
  | "system" => some .system
  | "user" => some .user
  | "assistant" => some .assistant
  | "model" => some .assistant
  | _ => none

/-- A persisted record: the ordered (role tag, content) pairs of one session. -/
abbrev Record := List (String × String)

/-- Modelled from the spec: the persistent store of §4.3, one record per
session name (session.rs is not under src). -/
abbrev Store := List (String × Record)

/-- Serialization of a transcript, tagging each message with its role tag. -/
def encodeMessages (msgs : List Message) : Record :=
  msgs.map (fun m => (encodeRole m.role, m.content))

/-- Deserialization of a record: decode each role tag; an unknown tag is a
deserialization error. -/
def decodeMessages (name : String) : Record → Except SessionError (List Message)
  | [] => .ok []
  | (tag, content) :: rest =>
      match decodeRole tag with
      | none => .error (.deserialize name)
      | some r =>
          match decodeMessages name rest with
          | .ok ms => .ok (⟨r, content⟩ :: ms)
          | .error e => .error e

/-- Remove a named record from the store. -/
def storeErase (name : String) (s : Store) : Store :=
  s.filter (fun p => p.1 ≠ name)

/-- First record stored under the given name. -/
def storeFind (name : String) : Store → Option Record
  | [] => none
  | (k, v) :: rest => if k = name then some v else storeFind name rest

/-- Modelled from the spec: §4.3 `save(name)` serializes the full ordered
message sequence under the name, overwriting an existing record. -/
def saveSession (name : String) (msgs : List Message) (s : Store) : Store :=
  (name, encodeMessages msgs) :: storeErase name s

/-- Modelled from the spec: §4.3 `load(name)` fails with `NotFound` when no
record of that name exists, or with a deserialization error on an invalid
shape; on success it returns the full replacement message sequence. -/
def loadSession (name : String) (s : Store) : Except SessionError (List Message) :=
  match storeFind name s with
  | none => .error (.notFound name)
  | some r => decodeMessages name r

/-- Modelled from the spec: §4.3 `delete(name)` removes a named record and
fails if it is absent. -/
def deleteSession (name : String) (s : Store) : Except SessionError Store :=
  match storeFind name s with
  | none => .error (.notFound name)
  | some _ => .ok (storeErase name s)

/-- Modelled from the spec: §4.3 `list_all()` returns the names of all
existing records. -/
def listAll (s : Store) : List String :=
  s.map (fun p => p.1)

/-- Modelled from the spec: the two printer operations of §6 plus the chunk
forwarding of the streaming consumer and the line reads of the REPL loop,
recorded as an event trace (ui.rs is not under src; printing is modelled
as infallible event accumulation). -/
inductive Event where
  | appMsg (text : String)
  | errMsg (text : String)
  | chunkOut (text : String)
  | readLn (text : String)
deriving DecidableEq, Repr

/-- The error type of `handle_command` in src/src/main.rs (`CommandError`):
a creation error from a backend switch, a session persistence error, or the
quit signal. The print-failure variant is not modelled (printing is
infallible in this embedding). -/
inductive CommandError where
  | chatbotSwitch (e : ChatbotCreationError)
  | sessionErr (e : SessionError)
  | quit
deriving DecidableEq, Repr

/-- The mutable state threaded through the REPL of src/src/main.rs: the
session, the single active backend handle, and the persistent store the
session commands act on. -/
structure CmdState where
  session : Session
  chatbot : Chatbot
  store : Store

/-- Rust `str::split_whitespace`, embedded structurally over the character
list: maximal runs of non-whitespace characters, in order. The second
argument accumulates the current token in reverse. -/
def splitWsAux : List Char → List Char → List String
  | [], [] => []
  | [], cur => [String.mk cur.reverse]
  | c :: rest, cur =>
      if c.isWhitespace then
        match cur with
        | [] => splitWsAux rest []
        | _ => String.mk cur.reverse :: splitWsAux rest []
      else
        splitWsAux rest (c :: cur)

/-- `line.split_whitespace().collect()` from `handle_command`. -/
def splitWhitespace (s : String) : List String :=
  splitWsAux s.data []

/-- Rust `input.trim().is_empty()` from the REPL loop: true exactly when every
character is whitespace. -/
def isBlank (s : String) : Bool :=
  s.data.all Char.isWhitespace

/-- Rust `input.starts_with('/')` from the REPL loop. -/
def startsWithSlash (s : String) : Bool :=
  match s.data with
  | [] => false
  | c :: _ => c = '/'

/-- Display string of an `InvalidModelError`, reported by the `/model` arm.
Modelled from the spec: the Display impl is not under src. -/
def invalidModelMessage : InvalidModelError → String
  | .invalid m => "Invalid model: " ++ m

/-- `handle_command` from src/src/main.rs 197-409: tokenize the line on
whitespace, dispatch on the first token, mutate the state, record the
printed messages, and return `Ok` or the propagated `CommandError`
(`Err` is produced exactly where the Rust uses `?` or returns
`CommandError::Quit`). -/
def handleCommand (line : String) (st : CmdState) :
    CmdState × List Event × Except CommandError Unit :=
  match splitWhitespace line with
  | [] => (st, [Event.errMsg "No command specified."], .ok ())
  | command :: args =>
    if command = "/clear" ∨ command = "/c" then
      ({ st with session := ⟨[]⟩ }, [Event.appMsg "Context cleared."], .ok ())
    else if command = "/system" ∨ command = "/sys" then
      match args with
      | [] => (st, [Event.errMsg "System prompt is required. Usage: /system <prompt>"], .ok ())
      | _ :: _ =>
          let newMsg : Message := ⟨Role.system, String.intercalate " " args⟩
          let kept := st.session.messages.filter (fun m => m.role != Role.system)
          ({ st with session := ⟨newMsg :: kept⟩ }, [Event.appMsg "System prompt set."], .ok ())
    else if command = "/chatbot" ∨ command = "/cb" then
      match args with
      | [] => (st, [Event.errMsg "Chatbot is required. Usage: /chatbot <chatbot>"], .ok ())
      | newName :: _ =>
          if newName = "gemini" then
            match geminiCreate "gemini-1.5-flash" none with
            | .ok cb =>
                ({ st with chatbot := cb },
                 [Event.appMsg ("Chatbot changed to " ++ cb.name)], .ok ())
            | .error e => (st, [], .error (.chatbotSwitch e))
          else if newName = "dummy" then
            match dummyCreate "1" none with
            | .ok cb =>
                ({ st with chatbot := cb },
                 [Event.appMsg ("Chatbot changed to " ++ cb.name)], .ok ())
            | .error e => (st, [], .error (.chatbotSwitch e))
          else
            (st, [Event.errMsg "Invalid chatbot."], .ok ())
    else if command = "/list_chatbots" ∨ command = "/lc" then
      (st, [Event.appMsg "Available chatbots:",
            Event.appMsg "\tgemini - Google Gemini",
            Event.appMsg "\tdummy - Dummy"], .ok ())
    else if command = "/model" ∨ command = "/m" then
      match args with
      | [] => (st, [Event.errMsg "Model is required. Usage: /model <model>"], .ok ())
      | newModel :: _ =>
          match st.chatbot.changeModelF newModel with
          | .ok m =>
              ({ st with chatbot := { st.chatbot with model := m } },
               [Event.appMsg ("Chatbot model changed to " ++ m)], .ok ())
          | .error e => (st, [Event.errMsg (invalidModelMessage e)], .ok ())
    else if command = "/list_models" ∨ command = "/lm" then
      (st, Event.appMsg "Available models:"
             :: st.chatbot.availableModels.map (fun m => Event.appMsg ("\t" ++ m)), .ok ())
    else if command = "/info" ∨ command = "/i" then
      let base := [Event.appMsg ("Current chatbot: " ++ st.chatbot.name),
                   Event.appMsg ("Current model: " ++ st.chatbot.model)]
      match st.session.messages.find? (fun m => m.role == Role.system) with
      | some m => (st, base ++ [Event.appMsg ("System prompt: " ++ m.content)], .ok ())
      | none => (st, base, .ok ())
    else if command = "/help" ∨ command = "/h" then
      (st, [Event.appMsg "Available commands:",
            Event.appMsg "\t/clear or /c - Clear the conversation history (including system prompt)",
            Event.appMsg "\t/system <prompt> or /sys <prompt> - Set the system prompt",
            Event.appMsg "\t/chatbot <chatbot> or /cb <chatbot> - Change the chatbot",
            Event.appMsg "\t/list_chatbots or /lc - List all available chatbots",
            Event.appMsg "\t/model <model> or /m <model> - Change the chatbot model",
            Event.appMsg "\t/list_models or /lm - List all available models for current chatbot",
            Event.appMsg "\t/info or /i - Display current chatbot and model information",
            Event.appMsg "\t/save <filename> or /s <filename> - Save the session",
            Event.appMsg "\t/load <filename> or /l <filename> - Load a saved session",
            Event.appMsg "\t/delete <filename> or /d - Delete a session",
            Event.appMsg "\t/sessions or /se - List all saved session",
            Event.appMsg "\t/delete <filename> or /d - Delete a session",
            Event.appMsg "\t/help or /h - List all available commands",
            Event.appMsg "\t/quit or /q - Exit the application"], .ok ())
    else if command = "/save" ∨ command = "/s" then
      match args with
      | [] => (st, [Event.errMsg "Filename is required. Usage: /save <filename>"], .ok ())
      | filename :: _ =>
          ({ st with store := saveSession filename st.session.messages st.store },
           [Event.appMsg ("Session saved to " ++ filename ++ ".json")], .ok ())
    else if command = "/load" ∨ command = "/l" then
      match args with
      | [] => (st, [Event.errMsg "Filename is required. Usage: /load <filename>"], .ok ())
      | filename :: _ =>
          match loadSession filename st.store with
          | .ok msgs =>
              ({ st with session := ⟨msgs⟩ },
               [Event.appMsg ("Session loaded from " ++ filename ++ ".json")], .ok ())
          | .error e => (st, [], .error (.sessionErr e))
    else if command = "/sessions" ∨ command = "/se" then
      let ss := listAll st.store
      if ss.isEmpty then
        (st, [Event.errMsg "No saved sessions found."], .ok ())
      else
        (st, Event.appMsg "Saved sessions:" :: ss.map (fun e => Event.appMsg ("\t" ++ e)), .ok ())
    else if command = "/delete" ∨ command = "/d" then
      match args with
      | [] => (st, [Event.errMsg "Filename is required. Usage: /delete <filename>"], .ok ())
      | filename :: _ =>
          match deleteSession filename st.store with
          | .ok s2 =>
              ({ st with store := s2 },
               [Event.appMsg ("Session " ++ filename ++ ".json deleted.")], .ok ())
          | .error e => (st, [], .error (.sessionErr e))
    else if command = "/quit" ∨ command = "/q" then
      (st, [Event.appMsg "Quitting..."], .error .quit)
    else
      (st, [Event.errMsg "Invalid command. Use /help or /h for a list of commands."], .ok ())

theorem filter_ne_system_no_system (l : List Message) :
    (l.filter (fun m => m.role != Role.system)).filter (fun m => m.role == Role.system) = [] := by
  induction l with
  | nil => rfl
  | cons x xs ih =>
      by_cases h : x.role = Role.system <;> simp [List.filter_cons, h, ih]

theorem filter_ne_system_idem (l : List Message) :
    (l.filter (fun m => m.role != Role.system)).filter (fun m => m.role != Role.system)
      = l.filter (fun m => m.role != Role.system) := by
  induction l with
  | nil => rfl
  | cons x xs ih =>
      by_cases h : x.role = Role.system <;> simp [List.filter_cons, h, ih]

/-- Claim C6: dispatching `/system <p>` once or twice leaves a transcript whose
first message is the sole System message, with content `p` (the argument
tokens joined by single spaces), and with every non-System message of the
prior transcript preserved in order. -/
theorem system_cmd_idempotent (st : CmdState) (line a : String) (rest : List String)
    (hp : splitWhitespace line = "/system" :: a :: rest) :
    ((handleCommand line st).1.session.messages
        = ⟨Role.system, String.intercalate " " (a :: rest)⟩
            :: st.session.messages.filter (fun m => m.role != Role.system))
    ∧ ((handleCommand line (handleCommand line st).1).1.session.messages
        = (handleCommand line st).1.session.messages)
    ∧ ((handleCommand line st).1.session.messages.filter (fun m => m.role == Role.system)
        = [⟨Role.system, String.intercalate " " (a :: rest)⟩]) := by
  have h1 : handleCommand line st
      = ({ st with session := ⟨⟨Role.system, String.intercalate " " (a :: rest)⟩
            :: st.session.messages.filter (fun m => m.role != Role.system)⟩ },
         [Event.appMsg "System prompt set."], .ok ()) := by
    simp [handleCommand, hp]
  refine ⟨by rw [h1], ?_, ?_⟩
  · rw [h1]
    have h2 : handleCommand line ({ st with session := ⟨⟨Role.system,
        String.intercalate " " (a :: rest)⟩
          :: st.session.messages.filter (fun m => m.role != Role.system)⟩ } : CmdState)
        = ({ st with session := ⟨⟨Role.system, String.intercalate " " (a :: rest)⟩
              :: st.session.messages.filter (fun m => m.role != Role.system)⟩ },
           [Event.appMsg "System prompt set."], .ok ()) := by
      simp [handleCommand, hp, List.filter_cons, filter_ne_system_idem]
    rw [h2]
  · rw [h1]
    simp [List.filter_cons, filter_ne_system_no_system]

theorem system_cmd_idempotent_witness :
    (handleCommand "/system You are terse."
        ⟨⟨[⟨Role.user, "x"⟩, ⟨Role.system, "old"⟩]⟩, dummyChatbot, []⟩).1.session.messages
      = [⟨Role.system, "You are terse."⟩, ⟨Role.user, "x"⟩]
    ∧ (handleCommand "/system You are terse."
        (handleCommand "/system You are terse."
          ⟨⟨[⟨Role.user, "x"⟩, ⟨Role.system, "old"⟩]⟩, dummyChatbot, []⟩).1).1.session.messages
      = [⟨Role.system, "You are terse."⟩, ⟨Role.user, "x"⟩] := by
  have h := system_cmd_idempotent
    ⟨⟨[⟨Role.user, "x"⟩, ⟨Role.system, "old"⟩]⟩, dummyChatbot, []⟩
    "/system You are terse." "You" ["are", "terse."] (by decide)
  exact ⟨h.1.trans (by decide), (h.2.1.trans h.1).trans (by decide)⟩

/-- Claim C7: after `/chatbot dummy`, a `/chatbot <name>` with an unknown name
leaves the dummy backend as the active handle, prints the invalid-chatbot
error, succeeds as a command (no propagated error), and neither switch
changes the session transcript. -/
theorem chatbot_switch_failed_preserves (st : CmdState) (line tok : String)
    (hp : splitWhitespace line = ["/chatbot", tok])
    (hg : tok ≠ "gemini") (hd : tok ≠ "dummy") :
    ((handleCommand "/chatbot dummy" st).1.chatbot = dummyChatbot)
    ∧ ((handleCommand "/chatbot dummy" st).1.session = st.session)
    ∧ ((handleCommand line (handleCommand "/chatbot dummy" st).1).1.chatbot = dummyChatbot)
    ∧ ((handleCommand line (handleCommand "/chatbot dummy" st).1).1.session = st.session)
    ∧ ((handleCommand line (handleCommand "/chatbot dummy" st).1).2.1
        = [Event.errMsg "Invalid chatbot."])
    ∧ ((handleCommand line (handleCommand "/chatbot dummy" st).1).2.2 = .ok ()) := by
  have hsp : splitWhitespace "/chatbot dummy" = ["/chatbot", "dummy"] := by decide
  have h1 : handleCommand "/chatbot dummy" st
      = ({ st with chatbot := dummyChatbot },
         [Event.appMsg "Chatbot changed to Dummy"], .ok ()) := by
    simp [handleCommand, hsp, dummyCreate, dummyChatbot]
  have h2 : handleCommand line ({ st with chatbot := dummyChatbot } : CmdState)
      = ({ st with chatbot := dummyChatbot }, [Event.errMsg "Invalid chatbot."], .ok ()) := by
    simp [handleCommand, hp, hg, hd]
  rw [h1]
  simp [h2]

theorem chatbot_switch_failed_preserves_witness :
    ((handleCommand "/chatbot gpt"
        (handleCommand "/chatbot dummy"
          ⟨⟨[⟨Role.user, "x"⟩]⟩, streamABChatbot, []⟩).1).1.chatbot = dummyChatbot)
    ∧ ((handleCommand "/chatbot gpt"
        (handleCommand "/chatbot dummy"
          ⟨⟨[⟨Role.user, "x"⟩]⟩, streamABChatbot, []⟩).1).1.session = ⟨[⟨Role.user, "x"⟩]⟩)
    ∧ ((handleCommand "/chatbot gpt"
        (handleCommand "/chatbot dummy"
          ⟨⟨[⟨Role.user, "x"⟩]⟩, streamABChatbot, []⟩).1).2.1
        = [Event.errMsg "Invalid chatbot."]) := by
  have h := chatbot_switch_failed_preserves
    ⟨⟨[⟨Role.user, "x"⟩]⟩, streamABChatbot, []⟩ "/chatbot gpt" "gpt"
    (by decide) (by decide) (by decide)
  exact ⟨h.2.2.1, h.2.2.2.1, h.2.2.2.2.1⟩

/-- Claim C8: saving any message sequence under any name and loading that name
yields the same sequence, element-wise in role and content; the role tags
round-trip through the lowercase encodings, and the legacy tag `model`
decodes to `Assistant`. -/
theorem session_round_trip (store : Store) (name : String) (msgs : List Message) :
    loadSession name (saveSession name msgs store) = .ok msgs
    ∧ (∀ r, decodeRole (encodeRole r) = some r)
    ∧ decodeRole "model" = some Role.assistant := by
  refine ⟨?_, fun r => by cases r <;> rfl, rfl⟩
  have hre : ∀ r, decodeRole (encodeRole r) = some r := fun r => by cases r <;> rfl
  have hdec : ∀ l : List Message, decodeMessages name (encodeMessages l) = .ok l := by
    intro l
    induction l with
    | nil => rfl
    | cons m ms ih =>
        simp only [encodeMessages, List.map_cons] at ih ⊢
        simp [decodeMessages, hre, ih]
  simp [loadSession, saveSession, storeFind, hdec]

/-- The error type of `run_chat` in src/src/main.rs (`ChatError`): a
`ChatbotError` from a chat turn, a propagated `CommandError`, or the
line-editor failure raised when the input is exhausted. The read/print
variants carry no information the claims need. -/
inductive ChatError where
  | chatbotErr (e : ChatbotError)
  | commandErr (e : CommandError)
  | readlineEof
deriving DecidableEq, Repr

/-- The interactive loop of `run_chat` (src/src/main.rs 155-176), run over a
list of input lines with `isTerminal` the value of `io::stdin().is_terminal()`.
Each consumed line is recorded as a `readLn` event. A blank line is
skipped; a line starting with `/` goes to `handleCommand`, whose error
(if any) is propagated, ending the loop, as the Rust `?` does; any other
line is appended as a user message and a chat turn is run — a
`ChatbotError` likewise propagates and ends the loop, and after a
successful turn the loop returns `Ok` when standard input is not a
terminal. The assistant message returned by `handleChatMessage` is
discarded, exactly as `run_chat` discards the value of
`handle_chat_message(..).await?`. Exhausting the input list is the
line editor's end-of-input failure. -/
def runLoop (isTerminal : Bool) : CmdState → List String →
    CmdState × List Event × Except ChatError Unit
  | st, [] => (st, [], .error .readlineEof)
  | st, line :: rest =>
    if isBlank line then
      let r := runLoop isTerminal st rest
      (r.1, Event.readLn line :: r.2.1, r.2.2)
    else if startsWithSlash line then
      let hc := handleCommand line st
      match hc.2.2 with
      | .ok _ =>
          let r := runLoop isTerminal hc.1 rest
          (r.1, Event.readLn line :: (hc.2.1 ++ r.2.1), r.2.2)
      | .error e => (hc.1, Event.readLn line :: hc.2.1, .error (.commandErr e))
    else
      let st1 : CmdState := { st with session := ⟨st.session.messages ++ [⟨Role.user, line⟩]⟩ }
      let res := handleChatMessage st1.session.messages st1.chatbot
      match res.2 with
      | .error e =>
          (st1, Event.readLn line :: res.1.map Event.chunkOut, .error (.chatbotErr e))
      | .ok _ =>
          if isTerminal then
            let r := runLoop isTerminal st1 rest
            (r.1, (Event.readLn line :: res.1.map Event.chunkOut) ++ r.2.1, r.2.2)
          else
            (st1, Event.readLn line :: res.1.map Event.chunkOut, .ok ())

/-- Claim C1 (code bug evidence): running the claimed end-to-end scenario —
empty session, `/system You are terse.` then the chat line `hello` against
the dummy backend — leaves the transcript at the two messages
System/User; the assistant message is built and returned by the
streaming consumer (and its text is forwarded to the output), but
`run_chat` drops the returned message, so it is never appended. -/
theorem end_to_end_transcript_bug :
    ((runLoop false ⟨⟨[]⟩, dummyChatbot, []⟩ ["/system You are terse.", "hello"]).1.session.messages
      = [⟨Role.system, "You are terse."⟩, ⟨Role.user, "hello"⟩])
    ∧ ((runLoop false ⟨⟨[]⟩, dummyChatbot, []⟩ ["/system You are terse.", "hello"]).1.session.messages
      ≠ [⟨Role.system, "You are terse."⟩, ⟨Role.user, "hello"⟩,
         ⟨Role.assistant, "Dummy response to: \"hello\"."⟩])
    ∧ ((runLoop false ⟨⟨[]⟩, dummyChatbot, []⟩ ["/system You are terse.", "hello"]).2.1
      = [Event.readLn "/system You are terse.", Event.appMsg "System prompt set.",
         Event.readLn "hello", Event.chunkOut "Dummy response to: \"hello\"."])
    ∧ ((handleChatMessage [⟨Role.system, "You are terse."⟩, ⟨Role.user, "hello"⟩]
          dummyChatbot).2
      = .ok ⟨Role.assistant, "Dummy response to: \"hello\"."⟩) := by
  refine ⟨by decide, by decide, by decide, by decide⟩

/-- A backend whose stream yields one chunk and then a mid-stream error, used
to exhibit the mid-stream error behaviour of the loop. -/
def failingChatbot : Chatbot :=
  { name := "Failing"
    model := "f"
    availableModels := []
    changeModelF := fun m => .ok m
    sendMessage := fun _ => .ok [.ok "part one ", .error .serverError] }

/-- Claim C2 (counterexample): with a backend whose stream errors mid-stream,
the loop does not continue to the next input line — the error propagates
out of the loop (the second line is never read) instead of the REPL
continuing. -/
theorem midstream_error_kills_loop_cex :
    ((runLoop true ⟨⟨[]⟩, failingChatbot, []⟩ ["hi", "next"]).2.2
      = .error (.chatbotErr .serverError))
    ∧ ((runLoop true ⟨⟨[]⟩, failingChatbot, []⟩ ["hi", "next"]).2.1
      = [Event.readLn "hi", Event.chunkOut "part one "]) := by
  refine ⟨by decide, by decide⟩

/-- Claim C2 (amended): when a stream item is an error, the chunks already
received are the only output of the turn, no assistant message is produced,
and the error propagates out of the REPL loop, which terminates at once
with that error — no further input line is read; the error is then
reported once at top level and the process exits non-zero. -/
theorem midstream_error_aborts_loop (isT : Bool) (st : CmdState) (line : String)
    (rest : List String) (e : ChatbotError) (cs : List String)
    (hb : isBlank line = false) (hc : startsWithSlash line = false)
    (he : handleChatMessage (st.session.messages ++ [⟨Role.user, line⟩]) st.chatbot
      = (cs, .error e)) :
    runLoop isT st (line :: rest)
      = ({ st with session := ⟨st.session.messages ++ [⟨Role.user, line⟩]⟩ },
         Event.readLn line :: cs.map Event.chunkOut, .error (.chatbotErr e)) := by
  simp [runLoop, hb, hc, he]

theorem midstream_error_aborts_loop_witness :
    runLoop true ⟨⟨[]⟩, failingChatbot, []⟩ ["hi", "next"]
      = (⟨⟨[⟨Role.user, "hi"⟩]⟩, failingChatbot, []⟩,
         [Event.readLn "hi", Event.chunkOut "part one "],
         .error (.chatbotErr .serverError)) := by
  have h := midstream_error_aborts_loop true ⟨⟨[]⟩, failingChatbot, []⟩ "hi" ["next"]
    .serverError ["part one "] (by decide) (by decide) rfl
  exact h

/-- Claim C3 (counterexample): a failing command is not always non-fatal — a
`SessionError` from `/delete` of an absent record propagates out of the
loop, which terminates without reading the next input line; so `/quit` is
not the only input that ends the loop. -/
theorem command_failure_kills_loop_cex :
    ((runLoop true ⟨⟨[]⟩, dummyChatbot, []⟩ ["/delete nosuch", "hello"]).2.2
      = .error (.commandErr (.sessionErr (.notFound "nosuch"))))
    ∧ ((runLoop true ⟨⟨[]⟩, dummyChatbot, []⟩ ["/delete nosuch", "hello"]).2.1
      = [Event.readLn "/delete nosuch"]) := by
  refine ⟨by decide, by decide⟩

/-- Claim C3 (amended): a command failure that the dispatcher reports inline
(its result is `Ok`) is non-fatal — the loop continues with the next
input — but any `CommandError` the dispatcher returns (a `SessionError`
from the persistence commands, a creation error from `/chatbot`, or the
quit signal) propagates out of the loop and terminates it; `/quit` is
therefore not the only input that ends the loop. -/
theorem command_error_propagation (isT : Bool) (st st1 : CmdState) (line : String)
    (rest : List String) (evs : List Event)
    (hb : isBlank line = false) (hc : startsWithSlash line = true) :
    (∀ e, handleCommand line st = (st1, evs, .error e) →
        runLoop isT st (line :: rest) = (st1, Event.readLn line :: evs, .error (.commandErr e)))
    ∧ (handleCommand line st = (st1, evs, .ok ()) →
        runLoop isT st (line :: rest)
          = ((runLoop isT st1 rest).1,
             Event.readLn line :: (evs ++ (runLoop isT st1 rest).2.1),
             (runLoop isT st1 rest).2.2)) := by
  constructor
  · intro e he
    simp [runLoop, hb, hc, he]
  · intro he
    simp [runLoop, hb, hc, he]

theorem command_error_propagation_witness :
    runLoop true ⟨⟨[]⟩, dummyChatbot, []⟩ ["/delete nosuch", "hello"]
      = (⟨⟨[]⟩, dummyChatbot, []⟩, [Event.readLn "/delete nosuch"],
         .error (.commandErr (.sessionErr (.notFound "nosuch")))) := by
  have h := (command_error_propagation true ⟨⟨[]⟩, dummyChatbot, []⟩
    ⟨⟨[]⟩, dummyChatbot, []⟩ "/delete nosuch" ["hello"] []
    (by decide) (by decide)).1 (.sessionErr (.notFound "nosuch")) rfl
  exact h

/-- Claim C10: in the interactive loop with standard input not a terminal,
a successful chat turn returns success immediately and reads no further
input — the run behaves exactly as if that line were the last — whereas a
blank line or a successfully dispatched command always continues into the
remaining input and never triggers that exit. -/
theorem piped_single_turn (st : CmdState) (line : String) (rest : List String)
    (m : Message) (cs : List String)
    (hb : isBlank line = false) (hc : startsWithSlash line = false)
    (hok : handleChatMessage (st.session.messages ++ [⟨Role.user, line⟩]) st.chatbot
      = (cs, .ok m)) :
    (runLoop false st (line :: rest) = runLoop false st [line])
    ∧ ((runLoop false st (line :: rest)).2.2 = .ok ())
    ∧ (∀ (st2 : CmdState) (bl : String) (rest2 : List String), isBlank bl = true →
        runLoop false st2 (bl :: rest2)
          = ((runLoop false st2 rest2).1,
             Event.readLn bl :: (runLoop false st2 rest2).2.1,
             (runLoop false st2 rest2).2.2))
    ∧ (∀ (st2 st3 : CmdState) (cl : String) (rest2 : List String) (evs : List Event),
        isBlank cl = false → startsWithSlash cl = true →
        handleCommand cl st2 = (st3, evs, .ok ()) →
        runLoop false st2 (cl :: rest2)
          = ((runLoop false st3 rest2).1,
             Event.readLn cl :: (evs ++ (runLoop false st3 rest2).2.1),
             (runLoop false st3 rest2).2.2)) := by
  refine ⟨?_, ?_, ?_, ?_⟩
  · simp [runLoop, hb, hc, hok]
  · simp [runLoop, hb, hc, hok]
  · intro st2 bl rest2 hbl
    simp [runLoop, hbl]
  · intro st2 st3 cl rest2 evs hbl hcl hcmd
    simp [runLoop, hbl, hcl, hcmd]

theorem piped_single_turn_witness :
    runLoop false ⟨⟨[]⟩, dummyChatbot, []⟩ ["hello", "world"]
      = runLoop false ⟨⟨[]⟩, dummyChatbot, []⟩ ["hello"]
    ∧ (runLoop false ⟨⟨[]⟩, dummyChatbot, []⟩ ["hello", "world"]).2.2 = .ok () := by
  have h := piped_single_turn ⟨⟨[]⟩, dummyChatbot, []⟩ "hello" ["world"]
    ⟨Role.assistant, "Dummy response to: \"hello\"."⟩ ["Dummy response to: \"hello\"."]
    (by decide) (by decide) (by decide)
  exact ⟨h.1, h.2.1⟩

/-- The CLI subcommands consumed by `main` (src/src/main.rs 42-78): `gemini`
with a model and optional prompt, `dummy` with an optional prompt, and the
catch-all for any other subcommand variant, which `main` maps to
`UnknownChatbot`. The cli module itself is not under src; the variants are
taken from the match in main.rs. -/
inductive CliCommand where
  | gemini (model : String) (prompt : Option String)
  | dummy (prompt : Option String)
  | otherSub

/-- Modelled from the spec: the config file contents `main` consults
(config.rs is not under src): the default chatbot variant name, the default
model, and the optional Gemini api key. -/
structure Config where
  defaultChatbot : String
  defaultModel : String
  geminiApiKey : Option String

/-- The backend-selection match of `main` (src/src/main.rs 42-78): a subcommand
selects its variant; no subcommand falls back to the config's default
variant and model; an unknown subcommand, an unknown configured default,
or no subcommand with no config all yield `UnknownChatbot`. Returns the
chatbot construction result together with the selected one-shot prompt. -/
def selectChatbot (cmd : Option CliCommand) (config : Option Config)
    (argsPrompt : Option String) :
    Except ChatbotCreationError Chatbot × Option String :=
  match cmd with
  | some (.gemini model prompt) =>
      let apiKey := match config with
                    | some c => c.geminiApiKey
                    | none => none
      (geminiCreate model apiKey, prompt)
  | some (.dummy prompt) => (dummyCreate "" none, prompt)
  | some .otherSub => (.error .unknownChatbot, none)
  | none =>
      match config with
      | some c =>
          if c.defaultChatbot = "gemini" then
            (geminiCreate c.defaultModel c.geminiApiKey, argsPrompt)
          else if c.defaultChatbot = "dummy" then
            (dummyCreate "" none, argsPrompt)
          else
            (.error .unknownChatbot, none)
      | none => (.error .unknownChatbot, none)

/-- The exit behaviour of `main` at startup (src/src/main.rs 80-90): when the
chatbot construction result is an error, the error is printed and the
process exits with code 1; otherwise startup proceeds into `run_chat`
(`none` here). -/
def startupExitCode (cmd : Option CliCommand) (config : Option Config)
    (argsPrompt : Option String) : Option Nat :=
  match (selectChatbot cmd config argsPrompt).1 with
  | .error _ => some 1
  | .ok _ => none

/-- Claim C9: with no subcommand, startup falls back to the config's default
variant and model; an unknown configured default, an unknown subcommand,
or no subcommand with no config fail with `UnknownChatbot`, and in each
failing case the process exits with the non-zero code 1. -/
theorem startup_selection_spec (cfg : Config) (argsPrompt : Option String) :
    (cfg.defaultChatbot = "gemini" →
        selectChatbot none (some cfg) argsPrompt
          = (geminiCreate cfg.defaultModel cfg.geminiApiKey, argsPrompt))
    ∧ (cfg.defaultChatbot = "dummy" →
        selectChatbot none (some cfg) argsPrompt = (dummyCreate "" none, argsPrompt))
    ∧ (cfg.defaultChatbot ≠ "gemini" → cfg.defaultChatbot ≠ "dummy" →
        (selectChatbot none (some cfg) argsPrompt).1 = .error .unknownChatbot
        ∧ startupExitCode none (some cfg) argsPrompt = some 1)
    ∧ ((selectChatbot none none argsPrompt).1 = .error .unknownChatbot
        ∧ startupExitCode none none argsPrompt = some 1)
    ∧ ((selectChatbot (some .otherSub) (some cfg) argsPrompt).1 = .error .unknownChatbot
        ∧ startupExitCode (some .otherSub) (some cfg) argsPrompt = some 1) := by
  refine ⟨fun hg => ?_, fun hd => ?_, fun hg hd => ?_, ?_, ?_⟩
  · simp [selectChatbot, hg]
  · simp [selectChatbot, hd]
  · constructor <;> simp [selectChatbot, startupExitCode, hg, hd]
  · constructor <;> simp [selectChatbot, startupExitCode]
  · constructor <;> simp [selectChatbot, startupExitCode]

theorem startup_selection_spec_witness :
    selectChatbot none (some ⟨"dummy", "m", none⟩) (some "hi")
      = (dummyCreate "" none, some "hi")
    ∧ startupExitCode none (some ⟨"openai", "m", none⟩) none = some 1 := by
  refine ⟨(startup_selection_spec ⟨"dummy", "m", none⟩ (some "hi")).2.1 rfl, ?_⟩
  exact ((startup_selection_spec ⟨"openai", "m", none⟩ none).2.2.1
    (by decide) (by decide)).2

end Llmcli
